import Mathlib

/-
Verification of the FaceCalibration repository (train.py, wet_dataloader.py,
wet_test.py) against its natural-language specification.  Every definition in
this file is a shallow embedding of a concrete piece of the Python source;
the line numbers in the comments refer to the repository files.
-/

namespace FaceCalibration

open Matrix

/-! ## Module-level name resolution (train.py lines 10 to 11, wet_dataloader.py) -/

/-- Top-level names bound in the module wet_dataloader.py: the imported names
(lines 1 to 11) and the definitions at module scope (lines 13 and 15). -/
def wetDataloaderModuleNames : List String :=
  ["cv2", "logging", "np", "random", "torch", "Dataset", "DataLoader",
   "Dict", "Any", "NDArray", "DLIB_2_FACE_BLAZE_MAPPING", "logger",
   "WetSyntheticLoader"]

/-- Parameter list of WetSyntheticLoader.__init__ (wet_dataloader.py line 17):
the method takes only self, and has no *args or **kwargs. -/
def wetSyntheticLoaderInitParams : List String := ["self"]

/-- Python semantics of a from-import: it succeeds exactly when the requested
name is bound at the top level of the target module. -/
def fromImport (moduleNames : List String) (name : String) : Except String Unit :=
  if moduleNames.contains name then Except.ok () else Except.error ("ImportError")

/-- Python semantics of binding one keyword argument at a call site of a
function without **kwargs: the keyword must name a declared parameter. -/
def bindKeywordArg (params : List String) (kw : String) : Except String Unit :=
  if params.contains kw then Except.ok () else Except.error ("TypeError")

/-- Embedding of a run of train.py with data_loader_type set to wet: the
module-level from-import of ImageOrientation from wet_dataloader (line 11)
runs first; then the call WetSyntheticLoader(image_orientation=orientation)
(line 78); only after both does the optimization loop (lines 92 to 141) run.
The returned value counts the optimization steps executed
(EPOCHS_COUNT * BATCHES_PER_EPOCH = 1 * 500 on success). -/
def trainWetRun : Except String Nat := do
  _ ← fromImport wetDataloaderModuleNames ("ImageOrientation")
  _ ← bindKeywordArg wetSyntheticLoaderInitParams ("image_orientation")
  Except.ok (1 * 500)

/-! ## The hyperparameter sweep around dualoptimization (wet_test.py lines 345 to 354) -/

/-- Outcome of one sweep iteration around the optimization call. -/
inductive SweepStep where
  | completedRun : SweepStep
  | continuedToNextRun : SweepStep
  | propagatedFailure : String → SweepStep
deriving DecidableEq

/-- Embedding of the try/except around optim.dualoptimization in wet_test.main
(lines 345 to 354): on success the body proceeds with the run; the bare except
clause prints a message and executes continue, moving to the next sweep
iteration.  The argument is the outcome of the dualoptimization call. -/
def sweepBodyAfterOptimization (result : Except String Unit) : SweepStep :=
  match result with
  | Except.ok _ => SweepStep.completedRun
  | Except.error _ => SweepStep.continuedToNextRun

/-! ## Tensor shapes produced by WetSyntheticLoader.__getitem__
(wet_dataloader.py lines 513 to 556) -/

/-- Shape of the array built by _generate_landmark_projections: it is
allocated as np.empty((samples_count, 68, 2)) (line 736) and each row i is
assigned a (68, 2) projection (line 831). -/
def projectionsBatchShape (samplesCount : Nat) : List Nat := [samplesCount, 68, 2]

/-- Shape effect of torch permute(0, 2, 1) on a rank-3 tensor (line 553);
other ranks are unreachable on this path. -/
def permute_0_2_1 : List Nat → List Nat
  | [a, b, c] => [a, c, b]
  | s => s

/-- Shape of the tensor stored under the key x_img by __getitem__: the
projections batch for samples_count = self.M = 100 (line 530 to 537), plus
noise of the same shape (lines 540 to 541, shape preserved), then
permute(0, 2, 1) (line 553). -/
def xImgShape : List Nat := permute_0_2_1 (projectionsBatchShape 100)

/-- Shape of the tensor stored under the key f_gt: torch.Tensor([f]) has
shape (1) (line 554). -/
def fGtShape : List Nat := [1]

/-! ## convert_keypoints_list_to_tensor (wet_test.py lines 208 to 238) -/

/-- Embedding of convert_keypoints_list_to_tensor at the level of shapes;
frames are represented by their shapes (rows, cols).  Line 220 asserts every
frame is 2-d with shape[0] = 68; line 223 stacks the list with np.array,
which yields a rank-3 array only for a nonempty list of identically shaped
frames; line 227 swaps axes 1 and 2; line 228 asserts the result is rank 3
with shape[1] = 2 and shape[2] = 68.  The frame count (axis 0) is never
checked.  Returns the shape of the produced tensor or the raised error. -/
def convert_keypoints_list_to_tensor (frames : List (Nat × Nat)) :
    Except String (Nat × Nat × Nat) :=
  if frames.all (fun s => s.1 = 68) then
    match frames with
    | [] => Except.error ("ValueError")
    | s :: rest =>
      if rest.all (fun t => t = s) then
        if s.2 = 2 ∧ s.1 = 68 then Except.ok ((s :: rest).length, s.2, s.1)
        else Except.error ("AssertionError")
      else Except.error ("ValueError")
  else Except.error ("AssertionError")

/-! ## Batch-mean focal length and training loss (train.py lines 122 to 132) -/

/-- Arithmetic mean of a list of rationals (torch.mean on a 1-d tensor). -/
def listMean (l : List ℚ) : ℚ := l.sum / l.length

/-- Entrywise mean over a batch of 3x3 matrices: K.mean(0) for a tensor of
shape (M, 3, 3) (train.py line 124). -/
def matMean (Ks : List (Matrix (Fin 3) (Fin 3) ℚ)) : Matrix (Fin 3) (Fin 3) ℚ :=
  Matrix.of fun i j => (Ks.map fun K => K i j).sum / Ks.length

/-- The focal-length error of train.py line 124:
torch.abs(K.mean(0)[0, 0] - fgt) / fgt. -/
def f_error (Ks : List (Matrix (Fin 3) (Fin 3) ℚ)) (fgt : ℚ) : ℚ :=
  |matMean Ks 0 0 - fgt| / fgt

/-- Total loss of one gradient step, train.py line 132:
loss = f_error_weight * f_error + s_error_weight * s_error. -/
def train_loss (f_error_weight s_error_weight : ℚ)
    (Ks : List (Matrix (Fin 3) (Fin 3) ℚ)) (fgt s_error_val : ℚ) : ℚ :=
  f_error_weight * f_error Ks fgt + s_error_weight * s_error_val

/-! ## The virtual camera matrix (wet_dataloader.py lines 621 to 628) -/

/-- Virtual camera matrix built by _generate_landmark_projection
(lines 622 to 626), in exact arithmetic. -/
def camera_matrix (f w h : ℚ) : Matrix (Fin 3) (Fin 3) ℚ :=
  !![f, 0, w / 2; 0, f, h / 2; 0, 0, 1]

/-! ## The averaged intrinsic matrix (wet_test.py lines 373 to 384) -/

/-- Element assignment A[i, j] = v on a 3x3 array. -/
def setEntry (A : Matrix (Fin 3) (Fin 3) ℚ) (i j : Fin 3) (v : ℚ) :
    Matrix (Fin 3) (Fin 3) ℚ :=
  Matrix.of fun r c => if r = i ∧ c = j then v else A r c

/-- Final predicted intrinsic matrix of wet_test.main: f, px, py are
torch.mean of K[:, 0, 0], K[:, 0, 2], K[:, 1, 2] over the frames
(lines 374 to 376); K_avg starts as np.zeros((3, 3)) (line 379) and receives
the five element assignments of lines 380 to 384. -/
def K_avg (Ks : List (Matrix (Fin 3) (Fin 3) ℚ)) : Matrix (Fin 3) (Fin 3) ℚ :=
  let f := listMean (Ks.map fun K => K 0 0)
  let px := listMean (Ks.map fun K => K 0 2)
  let py := listMean (Ks.map fun K => K 1 2)
  setEntry (setEntry (setEntry (setEntry (setEntry 0 0 0 f) 1 1 f) 0 2 px) 1 2 py) 2 2 1

/-! ## Pose interpolation in _generate_landmark_projections
(wet_dataloader.py lines 744 to 833) -/

/-- The six pose parameters passed per frame to
_generate_landmark_projection. -/
structure Pose where
  t_x : ℚ
  t_y : ℚ
  t_z : ℚ
  rot_x : ℚ
  rot_y : ℚ
  rot_z : ℚ

/-- Value at index i of np.linspace(a, b, num) in exact arithmetic, for
num at least 2 (lines 805 to 811 use num = samples_count = 100): the step is
(b - a) / (num - 1) and the endpoint is included. -/
def linspace (a b : ℚ) (num : Nat) (i : Nat) : ℚ :=
  a + (b - a) * i / ((num : ℚ) - 1)

/-- Helper: closed form of linspace for num = 100. -/
lemma linspace_100 (a b : ℚ) (i : ℕ) :
    linspace a b 100 i = a + ((i : ℚ) / 99) * (b - a) := by
  simp only [linspace]
  norm_num
  ring

/-- Helper: a 100-point linspace starts at its left endpoint. -/
lemma linspace_100_zero (a b : ℚ) : linspace a b 100 0 = a := by
  rw [linspace_100]
  norm_num

/-- Helper: a 100-point linspace ends at its right endpoint. -/
lemma linspace_100_last (a b : ℚ) : linspace a b 100 99 = b := by
  rw [linspace_100]
  push_cast
  field_simp

/-- Pose of frame i on the interpolated trajectory: each of the six pose
parameters follows its own linspace between the accepted initial and final
values (lines 805 to 811 and 822 to 829). -/
def trajectory_pose (init fin : Pose) (num i : Nat) : Pose :=
  { t_x := linspace init.t_x fin.t_x num i
    t_y := linspace init.t_y fin.t_y num i
    t_z := linspace init.t_z fin.t_z num i
    rot_x := linspace init.rot_x fin.rot_x num i
    rot_y := linspace init.rot_y fin.rot_y num i
    rot_z := linspace init.rot_z fin.rot_z num i }

/-- The full set of projection parameters passed to
_generate_landmark_projection for one frame (lines 822 to 829). -/
structure FrameParams where
  f : ℚ
  scale_x : ℚ
  scale_y : ℚ
  scale_z : ℚ
  pose : Pose

/-- Parameters of frame i of a generated batch: f is the focal length chosen
once in __getitem__ (line 527), the scale triple is chosen once before the
loop (lines 745 to 747), and the pose interpolates between the accepted
initial and final poses with samples_count = self.M = 100 (lines 805 to 829,
line 535). -/
def batch_frame_params (f scale_x scale_y scale_z : ℚ) (init fin : Pose) (i : Nat) :
    FrameParams :=
  { f := f, scale_x := scale_x, scale_y := scale_y, scale_z := scale_z,
    pose := trajectory_pose init fin 100 i }

/-! ## The rotation matrices of _generate_landmark_projection
(wet_dataloader.py lines 638 to 660), over exact real arithmetic -/

/-- Rotation about the X axis (lines 640 to 645). -/
noncomputable def R_x (a : ℝ) : Matrix (Fin 3) (Fin 3) ℝ :=
  !![1, 0, 0; 0, Real.cos a, -Real.sin a; 0, Real.sin a, Real.cos a]

/-- Rotation about the Y axis (lines 647 to 651). -/
noncomputable def R_y (b : ℝ) : Matrix (Fin 3) (Fin 3) ℝ :=
  !![Real.cos b, 0, Real.sin b; 0, 1, 0; -Real.sin b, 0, Real.cos b]

/-- Rotation about the Z axis (lines 653 to 657). -/
noncomputable def R_z (c : ℝ) : Matrix (Fin 3) (Fin 3) ℝ :=
  !![Real.cos c, -Real.sin c, 0; Real.sin c, Real.cos c, 0; 0, 0, 1]

/-- The combined rotation R_xyz = R_x @ R_y @ R_z (line 659). -/
noncomputable def R_xyz (a b c : ℝ) : Matrix (Fin 3) (Fin 3) ℝ :=
  R_x a * R_y b * R_z c

/-- Helper: explicit transpose of the X-axis rotation. -/
lemma R_x_transpose (a : ℝ) :
    (R_x a)ᵀ = !![1, 0, 0; 0, Real.cos a, Real.sin a; 0, -Real.sin a, Real.cos a] := by
  ext i j
  fin_cases i <;> fin_cases j <;>
    simp [R_x, Matrix.transpose_apply, Matrix.vecHead, Matrix.vecTail]

/-- Helper: explicit transpose of the Y-axis rotation. -/
lemma R_y_transpose (b : ℝ) :
    (R_y b)ᵀ = !![Real.cos b, 0, -Real.sin b; 0, 1, 0; Real.sin b, 0, Real.cos b] := by
  ext i j
  fin_cases i <;> fin_cases j <;>
    simp [R_y, Matrix.transpose_apply, Matrix.vecHead, Matrix.vecTail]

/-- Helper: explicit transpose of the Z-axis rotation. -/
lemma R_z_transpose (c : ℝ) :
    (R_z c)ᵀ = !![Real.cos c, Real.sin c, 0; -Real.sin c, Real.cos c, 0; 0, 0, 1] := by
  ext i j
  fin_cases i <;> fin_cases j <;>
    simp [R_z, Matrix.transpose_apply, Matrix.vecHead, Matrix.vecTail]

/-- Helper: each axis rotation is orthogonal. -/
lemma R_x_orthogonal (a : ℝ) : (R_x a)ᵀ * R_x a = 1 := by
  rw [R_x_transpose]
  ext i j
  fin_cases i <;> fin_cases j <;>
    simp [R_x, Matrix.mul_apply, Fin.sum_univ_three, Matrix.one_apply,
      Matrix.vecHead, Matrix.vecTail] <;>
    nlinarith [Real.sin_sq_add_cos_sq a]

/-- Helper: each axis rotation is orthogonal. -/
lemma R_y_orthogonal (b : ℝ) : (R_y b)ᵀ * R_y b = 1 := by
  rw [R_y_transpose]
  ext i j
  fin_cases i <;> fin_cases j <;>
    simp [R_y, Matrix.mul_apply, Fin.sum_univ_three, Matrix.one_apply,
      Matrix.vecHead, Matrix.vecTail] <;>
    nlinarith [Real.sin_sq_add_cos_sq b]

/-- Helper: each axis rotation is orthogonal. -/
lemma R_z_orthogonal (c : ℝ) : (R_z c)ᵀ * R_z c = 1 := by
  rw [R_z_transpose]
  ext i j
  fin_cases i <;> fin_cases j <;>
    simp [R_z, Matrix.mul_apply, Fin.sum_univ_three, Matrix.one_apply,
      Matrix.vecHead, Matrix.vecTail] <;>
    nlinarith [Real.sin_sq_add_cos_sq c]

/-- Helper: each axis rotation has determinant one. -/
lemma R_x_det (a : ℝ) : (R_x a).det = 1 := by
  rw [Matrix.det_fin_three]
  simp [R_x]
  nlinarith [Real.sin_sq_add_cos_sq a]

/-- Helper: each axis rotation has determinant one. -/
lemma R_y_det (b : ℝ) : (R_y b).det = 1 := by
  rw [Matrix.det_fin_three]
  simp [R_y]
  nlinarith [Real.sin_sq_add_cos_sq b]

/-- Helper: each axis rotation has determinant one. -/
lemma R_z_det (c : ℝ) : (R_z c).det = 1 := by
  rw [Matrix.det_fin_three]
  simp [R_z]
  nlinarith [Real.sin_sq_add_cos_sq c]

/-- Helper: a product of orthogonal matrices is orthogonal. -/
lemma orth_mul {A B : Matrix (Fin 3) (Fin 3) ℝ} (hA : Aᵀ * A = 1) (hB : Bᵀ * B = 1) :
    (A * B)ᵀ * (A * B) = 1 := by
  rw [Matrix.transpose_mul, mul_assoc, ← mul_assoc Aᵀ A B, hA, one_mul, hB]

/-! ## The pose-pair rejection-sampling loop
(wet_dataloader.py _generate_landmark_projections, lines 749 to 802) -/

/-- The per-landmark in-frame test used on each projected landmark
(lines 792 to 793): strictly inside the frame in both coordinates. -/
def landmarkInFrame (w h : ℚ) (p : ℚ × ℚ) : Bool :=
  decide (0 < p.1) && decide (p.1 < w) && decide (0 < p.2) && decide (p.2 < h)

/-- A projection is valid when every landmark is in frame (lines 792 to 793). -/
def projectionInFrame (w h : ℚ) (ps : List (ℚ × ℚ)) : Bool :=
  ps.all (landmarkInFrame w h)

/-- A drawn pose pair is valid when both its initial and final projections
are fully in frame (line 796). -/
def posePairValid (w h : ℚ) (initProj finProj : List (ℚ × ℚ)) : Bool :=
  projectionInFrame w h initProj && projectionInFrame w h finProj

/-- Embedding of the while True loop of _generate_landmark_projections
(lines 749 to 802).  valid iter is the outcome of the in-frame test for the
pose pair drawn at iteration iter (the loop draws fresh random poses every
iteration, so the draw stream is a parameter).  The loop body has exactly two
exits of control: break on a valid pair, or increment iter and loop again;
there is no cap test and no failure branch.  fuel bounds how long we observe
the loop; none means the loop is still running after fuel iterations, which
is an artifact of finite observation, not a failure result of the code. -/
def poseSearchLoop (valid : Nat → Bool) : Nat → Nat → Option Nat
  | 0, _ => none
  | fuel + 1, iter => if valid iter then some iter else poseSearchLoop valid fuel (iter + 1)

/-- Helper: the loop accepts the single valid draw, however late it occurs. -/
lemma poseSearchLoop_hits (n : Nat) :
    ∀ iter, poseSearchLoop (fun i => decide (i = iter + n)) (n + 1) iter = some (iter + n) := by
  induction n with
  | zero => intro iter; simp [poseSearchLoop]
  | succ m ih =>
    intro iter
    have hne : iter ≠ iter + (m + 1) := by omega
    have h1 : poseSearchLoop (fun i => decide (i = iter + (m + 1))) (m + 1 + 1) iter
        = poseSearchLoop (fun i => decide (i = iter + (m + 1))) (m + 1) (iter + 1) := by
      simp [poseSearchLoop, hne]
    have h2 : (fun i => decide (i = iter + (m + 1))) = (fun i => decide (i = (iter + 1) + m)) := by
      funext i
      have : iter + (m + 1) = (iter + 1) + m := by omega
      rw [this]
    rw [h1, h2]
    have := ih (iter + 1)
    rw [this]
    congr 1
    omega

/-- Helper: with no valid draw the loop runs forever (never produces a
result, in particular never an explicit failure). -/
lemma poseSearchLoop_none : ∀ fuel iter, poseSearchLoop (fun _ => false) fuel iter = none := by
  intro fuel
  induction fuel with
  | zero => intro iter; rfl
  | succ m ih => intro iter; simp [poseSearchLoop, ih]

end FaceCalibration

namespace FaceCalibration

open Matrix

/-! ## Claim theorems -/

/-- C3: a run of train with data_loader_type wet fails before any
optimization step executes: ImageOrientation is not among the top-level
names of wet_dataloader, so the module-level from-import fails, and
independently image_orientation is not a parameter of
WetSyntheticLoader.__init__, so the keyword call would raise as well, for
every orientation value. -/
theorem C3_train_wet_fails_before_any_step :
    trainWetRun = Except.error ("ImportError")
    ∧ wetDataloaderModuleNames.contains ("ImageOrientation") = false
    ∧ bindKeywordArg wetSyntheticLoaderInitParams ("image_orientation")
        = Except.error ("TypeError") := by
  refine ⟨rfl, by decide, rfl⟩

/-- C2 counterexample: a run-level failure raised by the dualoptimization
call is not propagated: the bare except clause maps it to continuing the
sweep, not to a propagated failure. -/
theorem C2_counterexample :
    sweepBodyAfterOptimization (Except.error ("NaN loss")) = SweepStep.continuedToNextRun
    ∧ sweepBodyAfterOptimization (Except.error ("NaN loss"))
        ≠ SweepStep.propagatedFailure ("NaN loss") := by
  refine ⟨rfl, by simp [sweepBodyAfterOptimization]⟩

/-- C2 amended: every failure raised by the dualoptimization call is
swallowed by the catch-all except clause, which prints and continues the
hyperparameter sweep; only a successful call lets the run proceed. -/
theorem C2_catch_all_swallows_every_failure :
    (∀ e : String, sweepBodyAfterOptimization (Except.error e) = SweepStep.continuedToNextRun)
    ∧ sweepBodyAfterOptimization (Except.ok ()) = SweepStep.completedRun := by
  exact ⟨fun _ => rfl, rfl⟩

/-- C4 counterexample: the tensor stored under x_img by
WetSyntheticLoader.__getitem__ does not have shape (100, 68, 2). -/
theorem C4_counterexample : xImgShape ≠ [100, 68, 2] := by decide

/-- C4 amended: __getitem__ returns x_img holding the M = 100 frames of
N = 68 two-coordinate landmarks laid out with shape (100, 2, 68) — the
coordinate axis permuted before the landmark axis by permute(0, 2, 1) — and
a ground-truth focal length f_gt of shape (1). -/
theorem C4_getitem_shapes :
    xImgShape = [100, 2, 68]
    ∧ xImgShape = permute_0_2_1 [100, 68, 2]
    ∧ fGtShape = [1] := by
  refine ⟨rfl, rfl, rfl⟩

/-- C6 counterexample: a batch of M = 9 frames (the valid-frame count of the
data1 recording) of 68 two-coordinate landmarks violates M = 100, yet
convert_keypoints_list_to_tensor raises nothing and produces a tensor of
shape (9, 2, 68). -/
theorem C6_counterexample :
    convert_keypoints_list_to_tensor (List.replicate 9 (68, 2)) = Except.ok (9, 2, 68)
    ∧ (List.replicate 9 ((68 : Nat), (2 : Nat))).length ≠ 100 := by
  refine ⟨rfl, by decide⟩

/-- C6 amended: the conversion path validates only the per-frame landmark
dimensions — it produces a tensor exactly when the frame list is a nonempty
uniform list of (68, 2) frames, in which case the tensor has shape
(M, 2, 68) for the given frame count M; wrong N fails the assertions, but
the frame count M is never checked against 100. -/
theorem C6_shape_checks :
    ∀ frames : List (Nat × Nat),
      (convert_keypoints_list_to_tensor frames = Except.ok (frames.length, 2, 68)
        ↔ frames ≠ [] ∧ ∀ s ∈ frames, s = ((68 : Nat), (2 : Nat))) := by
  intro frames
  rcases frames with - | ⟨⟨r, c⟩, rest⟩
  · simp [convert_keypoints_list_to_tensor]
  · simp only [convert_keypoints_list_to_tensor]
    constructor
    · intro h
      split_ifs at h with hall huni hc
      · have hc2 : c = 2 := hc.1
        have hr : r = 68 := hc.2
        subst hc2
        subst hr
        simp only [List.all_eq_true, decide_eq_true_eq] at huni
        refine ⟨by simp, ?_⟩
        intro s hs
        rcases List.mem_cons.mp hs with h1 | h2
        · exact h1
        · exact huni s h2
    · rintro ⟨-, hmem⟩
      have hhead : ((r, c) : Nat × Nat) = (68, 2) := hmem _ (List.mem_cons_self _ _)
      have hr : r = 68 := congrArg Prod.fst hhead
      have hc : c = 2 := congrArg Prod.snd hhead
      subst hr
      subst hc
      have hall : (((68, 2) : Nat × Nat) :: rest).all (fun s => s.1 = 68) = true := by
        simp only [List.all_eq_true, decide_eq_true_eq]
        intro s hs
        rw [hmem s hs]
      have huni : rest.all (fun t => t = ((68, 2) : Nat × Nat)) = true := by
        simp only [List.all_eq_true, decide_eq_true_eq]
        intro s hs
        exact hmem s (List.mem_cons_of_mem _ hs)
      rw [if_pos hall, if_pos huni, if_pos ⟨rfl, rfl⟩]

/-- C1 counterexample: the pose-pair search has no fixed iteration cap: for
every candidate cap there is a draw stream on which the loop runs past the
cap and still succeeds rather than failing, so no cap bounds the accepted
iteration index. -/
theorem C1_counterexample :
    ¬ ∃ cap : Nat, ∀ (valid : Nat → Bool) (fuel n : Nat),
        poseSearchLoop valid fuel 0 = some n → n < cap := by
  rintro ⟨cap, h⟩
  have hhit := poseSearchLoop_hits cap 0
  simp only [Nat.zero_add] at hhit
  exact absurd (h (fun i => decide (i = cap)) (cap + 1) cap hhit) (lt_irrefl cap)

/-- C1 amended: the rejection-sampling search in
_generate_landmark_projections is an unbounded while True loop: it accepts
the first drawn pose pair whose projections pass the in-frame test at
whatever iteration that occurs — in particular at iteration n for every n —
and on a draw stream with no valid pair it never terminates and never
produces an explicit failure. -/
theorem C1_search_loop_unbounded :
    (∀ n : Nat, poseSearchLoop (fun i => decide (i = n)) (n + 1) 0 = some n)
    ∧ (∀ fuel : Nat, poseSearchLoop (fun _ => false) fuel 0 = none) := by
  constructor
  · intro n
    have := poseSearchLoop_hits n 0
    simpa using this
  · intro fuel
    exact poseSearchLoop_none fuel 0

/-- C5: the training loss of one gradient step equals
w_f * f_error + w_s * s_error, where f_error is the relative error between
the batch-mean predicted focal length — the mean over frames of K[i][0][0]
— and the ground-truth focal length. -/
theorem C5_train_loss_formula :
    ∀ (f_error_weight s_error_weight : ℚ) (Ks : List (Matrix (Fin 3) (Fin 3) ℚ))
      (fgt s_error_val : ℚ),
      train_loss f_error_weight s_error_weight Ks fgt s_error_val
        = f_error_weight * (|listMean (Ks.map fun K => K 0 0) - fgt| / fgt)
          + s_error_weight * s_error_val := by
  intro wf ws Ks fgt serr
  simp [train_loss, f_error, matMean, listMean, List.length_map]

/-- C7: the virtual camera matrix built by _generate_landmark_projection is
exactly [[f, 0, w/2], [0, f, h/2], [0, 0, 1]]: equal focal entries on the
diagonal, principal point fixed at half frame width and height, zero
off-diagonal entries, and last row (0, 0, 1). -/
theorem C7_camera_matrix_structure :
    ∀ f w h : ℚ,
      camera_matrix f w h 0 0 = f ∧ camera_matrix f w h 1 1 = f
      ∧ camera_matrix f w h 0 2 = w / 2 ∧ camera_matrix f w h 1 2 = h / 2
      ∧ camera_matrix f w h 0 1 = 0 ∧ camera_matrix f w h 1 0 = 0
      ∧ camera_matrix f w h 2 0 = 0 ∧ camera_matrix f w h 2 1 = 0
      ∧ camera_matrix f w h 2 2 = 1 := by
  intro f w h
  refine ⟨?_, ?_, ?_, ?_, ?_, ?_, ?_, ?_, ?_⟩ <;>
    simp [camera_matrix, Matrix.vecHead, Matrix.vecTail]

/-- C8: the final predicted intrinsic matrix is the batch average: its
[0][0] and [1][1] entries both equal the mean over frames of K[i][0][0], its
[0][2] and [1][2] entries equal the means of K[i][0][2] and K[i][1][2], its
[2][2] entry is 1, and every other entry is 0. -/
theorem C8_K_avg_entries :
    ∀ Ks : List (Matrix (Fin 3) (Fin 3) ℚ),
      K_avg Ks 0 0 = listMean (Ks.map fun K => K 0 0)
      ∧ K_avg Ks 1 1 = listMean (Ks.map fun K => K 0 0)
      ∧ K_avg Ks 0 2 = listMean (Ks.map fun K => K 0 2)
      ∧ K_avg Ks 1 2 = listMean (Ks.map fun K => K 1 2)
      ∧ K_avg Ks 2 2 = 1
      ∧ K_avg Ks 0 1 = 0 ∧ K_avg Ks 1 0 = 0 ∧ K_avg Ks 2 0 = 0 ∧ K_avg Ks 2 1 = 0 := by
  intro Ks
  refine ⟨?_, ?_, ?_, ?_, ?_, ?_, ?_, ?_, ?_⟩ <;>
    simp [K_avg, setEntry]

/-- C9: within one generated batch all frames share the focal length and the
scale triple, and each pose parameter of frame i is the linear interpolation
init + (i / (M - 1)) * (final - init) with M = 100; frame 0 carries the
initial pose and frame 99 the final pose. -/
theorem C9_batch_interpolation :
    ∀ (f sx sy sz : ℚ) (init fin : Pose) (i : Fin 100),
      (batch_frame_params f sx sy sz init fin i).f = f
      ∧ (batch_frame_params f sx sy sz init fin i).scale_x = sx
      ∧ (batch_frame_params f sx sy sz init fin i).scale_y = sy
      ∧ (batch_frame_params f sx sy sz init fin i).scale_z = sz
      ∧ (batch_frame_params f sx sy sz init fin i).pose.t_x
          = init.t_x + (((i : ℕ) : ℚ) / 99) * (fin.t_x - init.t_x)
      ∧ (batch_frame_params f sx sy sz init fin i).pose.t_y
          = init.t_y + (((i : ℕ) : ℚ) / 99) * (fin.t_y - init.t_y)
      ∧ (batch_frame_params f sx sy sz init fin i).pose.t_z
          = init.t_z + (((i : ℕ) : ℚ) / 99) * (fin.t_z - init.t_z)
      ∧ (batch_frame_params f sx sy sz init fin i).pose.rot_x
          = init.rot_x + (((i : ℕ) : ℚ) / 99) * (fin.rot_x - init.rot_x)
      ∧ (batch_frame_params f sx sy sz init fin i).pose.rot_y
          = init.rot_y + (((i : ℕ) : ℚ) / 99) * (fin.rot_y - init.rot_y)
      ∧ (batch_frame_params f sx sy sz init fin i).pose.rot_z
          = init.rot_z + (((i : ℕ) : ℚ) / 99) * (fin.rot_z - init.rot_z)
      ∧ (batch_frame_params f sx sy sz init fin 0).pose = init
      ∧ (batch_frame_params f sx sy sz init fin 99).pose = fin := by
  intro f sx sy sz init fin i
  refine ⟨rfl, rfl, rfl, rfl,
    linspace_100 init.t_x fin.t_x i, linspace_100 init.t_y fin.t_y i,
    linspace_100 init.t_z fin.t_z i, linspace_100 init.rot_x fin.rot_x i,
    linspace_100 init.rot_y fin.rot_y i, linspace_100 init.rot_z fin.rot_z i,
    ?_, ?_⟩
  · show trajectory_pose init fin 100 0 = init
    obtain ⟨a1, a2, a3, a4, a5, a6⟩ := init
    obtain ⟨b1, b2, b3, b4, b5, b6⟩ := fin
    simp [trajectory_pose, linspace_100_zero]
  · show trajectory_pose init fin 100 99 = fin
    obtain ⟨a1, a2, a3, a4, a5, a6⟩ := init
    obtain ⟨b1, b2, b3, b4, b5, b6⟩ := fin
    simp [trajectory_pose, linspace_100_last]

/-- C10: for all rotation angles, the combined matrix
R_xyz = R_x * R_y * R_z is a proper rotation over exact real arithmetic:
its transpose times itself is the identity and its determinant is 1. -/
theorem C10_R_xyz_proper_rotation :
    ∀ a b c : ℝ, (R_xyz a b c)ᵀ * R_xyz a b c = 1 ∧ (R_xyz a b c).det = 1 := by
  intro a b c
  constructor
  · exact orth_mul (orth_mul (R_x_orthogonal a) (R_y_orthogonal b)) (R_z_orthogonal c)
  · simp [R_xyz, Matrix.det_mul, R_x_det, R_y_det, R_z_det]

end FaceCalibration
